import Mathlib

/-!
Verification of the analytics and scheduling core of the adaptive-learning
backend (`backend/app/services/`).  Python floats are modelled as `ℚ`
(the formulas are linear/rational except the mastery recency weight, which
uses `Real.exp`), Python ints as `ℤ`/`ℕ`, and fallible lookups as `Option`.
-/

/-! ## Data model (`app/models/analytics.py`) -/

/-- Raw facts about how a user answered one question
(`BehavioralSignals`, models/analytics.py lines 25-36). -/
structure BehavioralSignals where
  question_id : String
  time_spent : ℤ
  answered : Bool
  correct : Bool
  changed_answer : Bool
  hesitation_count : ℕ
  marked_tricky : Bool
  empirical_difficulty : ℚ
  topic : String
  llm_difficulty : String
deriving DecidableEq

/-- Inferred psychological states computed from signals
(`CognitiveScores`, models/analytics.py lines 40-47); every score
defaults to 0. -/
structure CognitiveScores where
  question_id : String
  guessing_score : ℚ := 0
  confusion_score : ℚ := 0
  avoidance_score : ℚ := 0
  knowledge_gap_score : ℚ := 0
  confidence_score : ℚ := 0
deriving DecidableEq

/-- Python's builtin `min` on two floats: the first argument when it is
less than or equal to the second.  Extensionally equal to `min` on `ℚ`
(see `pymin_eq_min`) but written with `ite` so that it evaluates inside
the kernel. -/
def pymin (a b : ℚ) : ℚ := if a ≤ b then a else b

/-- Python's builtin `max` on two floats, written with `ite` so that it
evaluates inside the kernel; extensionally equal to `max` on `ℚ`. -/
def pymax (a b : ℚ) : ℚ := if b ≤ a then a else b

/-! ## Cognitive scorer (`analytics_service_v2.py`) -/

/-- FAST_THRESHOLD = 20 seconds (analytics_service_v2.py line 34). -/
def FAST_THRESHOLD : ℤ := 20

/-- SLOW_THRESHOLD = 60 seconds (analytics_service_v2.py line 35). -/
def SLOW_THRESHOLD : ℤ := 60

/-- EASY_DIFFICULTY = 0.7 (analytics_service_v2.py line 36). -/
def EASY_DIFFICULTY : ℚ := 7/10

/-- HARD_DIFFICULTY = 0.3 (analytics_service_v2.py line 37). -/
def HARD_DIFFICULTY : ℚ := 3/10

/-- Translation of `AnalyticsServiceV2.compute_cognitive_scores`
(analytics_service_v2.py lines 63-110).  The Python code mutates a fresh
`CognitiveScores` record field by field; here the same sequence of
conditional field updates is expressed with record updates. -/
def compute_cognitive_scores (signal : BehavioralSignals) : CognitiveScores :=
  let scores : CognitiveScores := { question_id := signal.question_id }
  if signal.answered = false then
    -- Skipped questions: easy skip = high avoidance
    if EASY_DIFFICULTY < signal.empirical_difficulty then
      { scores with avoidance_score := 9/10 }
    else
      { scores with avoidance_score := 6/10 }
  else if signal.correct = false then
    -- Wrong answers
    let s1 :=
      if signal.time_spent < FAST_THRESHOLD then
        if signal.empirical_difficulty < HARD_DIFFICULTY then
          { scores with guessing_score := 8/10 }
        else
          { scores with guessing_score := 5/10 }
      else scores
    let confusion := pymin (7/10 + pymin ((signal.hesitation_count : ℚ) * (1/10)) (3/10)) 1
    let s2 :=
      if SLOW_THRESHOLD < signal.time_spent then
        { s1 with confusion_score := confusion }
      else s1
    if EASY_DIFFICULTY < signal.empirical_difficulty then
      { s2 with knowledge_gap_score := 9/10 }
    else s2
  else
    -- Correct answers
    if signal.time_spent < FAST_THRESHOLD ∧ signal.changed_answer = false then
      { scores with confidence_score := 9/10 }
    else if signal.changed_answer = false ∧ signal.marked_tricky = false then
      { scores with confidence_score := 7/10 }
    else scores

/-- The fixed threshold table exactly as claim C1 states it, one record
literal per branch with each score given by its own conditional. -/
def cognitive_scores_claim_table (s : BehavioralSignals) : CognitiveScores :=
  if s.answered = false then
    { question_id := s.question_id,
      avoidance_score := if 7/10 < s.empirical_difficulty then 9/10 else 6/10 }
  else if s.correct = false then
    { question_id := s.question_id,
      guessing_score := (if s.time_spent < 20 ∧ s.empirical_difficulty < 3/10 then 8/10
        else if s.time_spent < 20 then 5/10 else 0),
      confusion_score := (if 60 < s.time_spent then
          pymin (7/10 + pymin ((s.hesitation_count : ℚ) * (1/10)) (3/10)) 1
        else 0),
      knowledge_gap_score := if 7/10 < s.empirical_difficulty then 9/10 else 0,
      confidence_score := 0 }
  else
    { question_id := s.question_id,
      confidence_score := (if s.time_spent < 20 ∧ s.changed_answer = false then 9/10
        else if s.changed_answer = false ∧ s.marked_tricky = false then 7/10
        else 0) }

/-! ## SM-2 spaced repetition (`spaced_repetition_service.py`) -/

/-- Python's built-in `round` on a float: round half to even. -/
def pyRound (x : ℚ) : ℤ :=
  let f := Rat.floor x
  let frac := x - f
  if frac < 1/2 then f
  else if 1/2 < frac then f + 1
  else if f % 2 = 0 then f else f + 1

/-- Translation of `SpacedRepetitionService.calculate_next_review`
(spaced_repetition_service.py lines 35-72); returns
`(new_interval, new_repetitions, new_ease_factor)`. -/
def calculate_next_review (interval repetitions : ℤ) (ease_factor : ℚ)
    (quality : ℤ) : ℤ × ℤ × ℚ :=
  let new_ease_factor :=
    ease_factor + (1/10 - (5 - (quality : ℚ)) * (2/25 + (5 - (quality : ℚ)) * (1/50)))
  let new_ease_factor := pymax (13/10) new_ease_factor
  if quality < 3 then
    (1, 0, new_ease_factor)
  else
    let new_repetitions := repetitions + 1
    let new_interval :=
      if new_repetitions = 1 then 1
      else if new_repetitions = 2 then 6
      else pyRound ((interval : ℚ) * new_ease_factor)
    (new_interval, new_repetitions, new_ease_factor)

/-! ## Question selection prioritizer (`question_selection_service.py`) -/

/-- One entry of the reuse-tracking question pool, with the fields read by
`_prioritize_questions` via `dict.get` defaults: `times_answered` and
`times_correct` default to 0, `is_mastered` to false, and a missing
`last_used_at` is `none` (Python substitutes `datetime.min`; timestamps are
modelled as `ℕ` with 0 playing the role of `datetime.min`). -/
structure QuestionPoolEntry where
  id : String := ""
  times_answered : ℕ := 0
  times_correct : ℕ := 0
  is_mastered : Bool := false
  last_used_at : Option ℕ := none
deriving DecidableEq

instance : Inhabited QuestionPoolEntry := ⟨{}⟩

/-- Translation of the `priority_score` key function inside
`QuestionSelectionService._prioritize_questions`
(question_selection_service.py lines 85-103): a pair
(tier, last_used_at) with missing last_used_at defaulted. -/
def priority_score_key (q : QuestionPoolEntry) : ℕ × ℕ :=
  let times_answered := q.times_answered
  let times_correct := q.times_correct
  let last_used := q.last_used_at.getD 0
  if times_answered = 0 then (0, last_used)
  else if times_correct < times_answered then (1, last_used)
  else if times_correct = 1 then (2, last_used)
  else (3, last_used)

/-- The tier component of the sort key. -/
def tier (q : QuestionPoolEntry) : ℕ := (priority_score_key q).1

/-- Python tuple comparison on the sort keys (lexicographic). -/
def keyLe (a b : QuestionPoolEntry) : Prop :=
  (priority_score_key a).1 < (priority_score_key b).1 ∨
    ((priority_score_key a).1 = (priority_score_key b).1 ∧
      (priority_score_key a).2 ≤ (priority_score_key b).2)

instance : DecidableRel keyLe := fun a b => by unfold keyLe; infer_instance

instance : IsTotal QuestionPoolEntry keyLe := ⟨by intro a b; unfold keyLe; omega⟩

instance : IsTrans QuestionPoolEntry keyLe := ⟨by intro a b c; unfold keyLe; omega⟩

/-- Translation of `QuestionSelectionService._prioritize_questions`
(question_selection_service.py lines 73-105): Python's `sorted` is the
stable sort by `priority_score`, embedded as insertion sort by `keyLe`
(stable sorts by the same total key agree extensionally). -/
def prioritize_questions (questions : List QuestionPoolEntry) : List QuestionPoolEntry :=
  List.insertionSort keyLe questions

/-- The pure selection core of
`QuestionSelectionService.get_available_questions`
(question_selection_service.py lines 62-71), taking the pool returned by
the database query: prioritize, take `num_needed`, and signal
`needs_generation` when fewer were selected than needed. -/
def select_questions (pool : List QuestionPoolEntry) (num_needed : ℕ) :
    List QuestionPoolEntry × Bool :=
  let prioritized := prioritize_questions pool
  let selected := prioritized.take num_needed
  (selected, decide (selected.length < num_needed))

/-- Scenario C pool: never-answered, wrong-more-than-right, and mastered
entries. -/
def scenario_c_pool : List QuestionPoolEntry :=
  [{ id := "fresh" },
   { id := "wrong", times_answered := 5, times_correct := 1 },
   { id := "mastered", times_answered := 2, times_correct := 2, is_mastered := true }]

/-! ## Advanced analytics (`advanced_analytics_service.py`) -/

/-- One answer record inside a stored session, with the fields read by
the advanced analytics service. -/
structure AnswerRecord where
  question_id : String
  status : String
  hesitation_count : ℕ := 0
deriving DecidableEq

/-- A completed test session: the ordered question-id list and the
answer records. -/
structure Session where
  questions : List String
  answers : List AnswerRecord
deriving DecidableEq

instance : Inhabited Session := ⟨⟨[], []⟩⟩

/-- A stored question: its id and topic (the fields read by the advanced
analytics service). -/
structure Question where
  id : String
  topic : String
deriving DecidableEq

/-- Whether an answer of a session counts for a topic
(advanced_analytics_service.py lines 59-70 and 341-350): its question id
belongs to the session's question list and bears the topic in the
question store. -/
def answer_relevant (qdb : List Question) (sess : Session) (t : String)
    (a : AnswerRecord) : Bool :=
  qdb.any (fun q => q.id == a.question_id && q.topic == t &&
    sess.questions.contains q.id)

/-- The per-session, per-topic attempt count (`topic_stats["total"]`). -/
def session_topic_total (qdb : List Question) (sess : Session) (t : String) : ℕ :=
  sess.answers.countP (fun a => answer_relevant qdb sess t a)

/-- The per-session, per-topic correct count (`topic_stats["correct"]`). -/
def session_topic_correct (qdb : List Question) (sess : Session) (t : String) : ℕ :=
  sess.answers.countP (fun a => answer_relevant qdb sess t a && a.status == "correct")

/-- The per-session topic mastery appended to the trajectory when the
topic was attempted (advanced_analytics_service.py lines 75-77 and
355-357): correct/total, or nothing when total = 0. -/
def session_mastery (qdb : List Question) (t : String) (sess : Session) : Option ℚ :=
  let total := session_topic_total qdb sess t
  let correct := session_topic_correct qdb sess t
  if 0 < total then some ((correct : ℚ) / (total : ℚ)) else none

/-- The chronological mastery trajectory of a topic over completed
sessions (advanced_analytics_service.py lines 52-77). -/
def mastery_trajectory (qdb : List Question) (sessions : List Session)
    (t : String) : List ℚ :=
  sessions.filterMap (session_mastery qdb t)

/-- Translation of `AdvancedAnalyticsService._calculate_slope`
(advanced_analytics_service.py lines 169-188): ordinary least squares
slope over x = 0..n-1. -/
def calculate_slope (values : List ℚ) : ℚ :=
  if values.length < 2 then 0
  else
    let n : ℚ := (values.length : ℚ)
    let xs : List ℚ := (List.range values.length).map (fun i => (i : ℚ))
    let x_mean := xs.sum / n
    let y_mean := values.sum / n
    let numerator := ((xs.zip values).map (fun p => (p.1 - x_mean) * (p.2 - y_mean))).sum
    let denominator := (xs.map (fun x => (x - x_mean)^2)).sum
    if denominator = 0 then 0 else numerator / denominator

/-- Learning-velocity result (`LearningVelocity`, models/analytics.py
lines 165-173); `comparative_rank` (set only by the cross-topic
comparison) is omitted. -/
structure LearningVelocity where
  topic : String
  sessions_analyzed : ℕ
  mastery_trajectory : List ℚ
  velocity : ℚ
  acceleration : ℚ
  sessions_to_mastery : Option ℤ
deriving DecidableEq

/-- Translation of `AdvancedAnalyticsService.calculate_learning_velocity`
(advanced_analytics_service.py lines 34-119), over the session and
question data the database would return. -/
def calculate_learning_velocity (topic : String) (qdb : List Question)
    (sessions : List Session) : LearningVelocity :=
  let traj := mastery_trajectory qdb sessions topic
  if traj.length < 2 then
    { topic := topic, sessions_analyzed := traj.length, mastery_trajectory := traj,
      velocity := 0, acceleration := 0, sessions_to_mastery := none }
  else
    let velocity := calculate_slope traj
    let acceleration :=
      if 4 ≤ traj.length then
        calculate_slope (traj.drop (traj.length / 2)) -
          calculate_slope (traj.take (traj.length / 2))
      else 0
    let current_mastery := traj.getLast?.getD 0
    let sessions_to_mastery :=
      if 0 < velocity ∧ current_mastery < 9/10 then
        some (max 1 (Int.ceil ((9/10 - current_mastery) / velocity)))
      else none
    { topic := topic, sessions_analyzed := traj.length, mastery_trajectory := traj,
      velocity := velocity, acceleration := acceleration,
      sessions_to_mastery := sessions_to_mastery }

/-- Exam readiness result (`ExamReadinessScore`, models/analytics.py
lines 190-208). -/
structure ExamReadinessScore where
  overall_score : ℚ
  mastery_score : ℚ
  consistency_score : ℚ
  confidence_score : ℚ
  coverage_score : ℚ
  strong_topics : List String
  weak_topics : List String
  inconsistent_topics : List String
  estimated_study_hours : ℤ
  priority_actions : List String
  readiness_level : String
deriving DecidableEq

/-- Translation of `AdvancedAnalyticsService._default_readiness`
(advanced_analytics_service.py lines 442-456). -/
def default_readiness : ExamReadinessScore :=
  { overall_score := 0, mastery_score := 0, consistency_score := 0,
    confidence_score := 0, coverage_score := 0, strong_topics := [],
    weak_topics := [], inconsistent_topics := [], estimated_study_hours := 20,
    priority_actions := ["Complete at least one practice test"],
    readiness_level := "Not Started" }

/-- Python's `statistics.mean` (callers guarantee a nonempty list). -/
def listMean (l : List ℚ) : ℚ := l.sum / (l.length : ℚ)

/-- Python's `statistics.variance`: the sample variance with an n-1
denominator (callers guarantee at least two points). -/
def sampleVariance (l : List ℚ) : ℚ :=
  ((l.map (fun x => (x - listMean l)^2)).sum) / ((l.length : ℚ) - 1)

/-- Python's `round(x, 1)`: round half to even at one decimal. -/
def pyRound1 (x : ℚ) : ℚ := ((pyRound (x * 10) : ℤ) : ℚ) / 10

/-- The per-topic mean of the per-session mastery values
(`topic_masteries[topic]`, advanced_analytics_service.py lines 359-363). -/
def topic_mastery_mean (qdb : List Question) (sessions : List Session)
    (t : String) : ℚ :=
  let mv := sessions.filterMap (session_mastery qdb t)
  if mv = [] then 0 else listMean mv

/-- The per-topic variance of the per-session mastery values
(`topic_variances[topic]`, advanced_analytics_service.py lines 359-364). -/
def topic_variance (qdb : List Question) (sessions : List Session)
    (t : String) : ℚ :=
  let mv := sessions.filterMap (session_mastery qdb t)
  if mv = [] then 0
  else if 1 < mv.length then sampleVariance mv else 0

/-- The document's topic set (`all_topics`, advanced_analytics_service.py
lines 324-329; a Python set, modelled as first-occurrence dedup). -/
def all_topics (qdb : List Question) : List String :=
  (qdb.map (fun q => q.topic)).dedup

/-- The `mastery_score` component of exam readiness
(advanced_analytics_service.py line 367): mean of per-topic mastery
means, 0 when the document has no topics. -/
def readiness_mastery_score (qdb : List Question) (sessions : List Session) : ℚ :=
  if all_topics qdb = [] then 0
  else listMean ((all_topics qdb).map (topic_mastery_mean qdb sessions))

/-- The `avg_variance` value of exam readiness
(advanced_analytics_service.py line 371). -/
def readiness_avg_variance (qdb : List Question) (sessions : List Session) : ℚ :=
  if all_topics qdb = [] then 0
  else listMean ((all_topics qdb).map (topic_variance qdb sessions))

/-- The `consistency_score` component
(advanced_analytics_service.py line 372): `max(0, 1 - avg_variance*2)`. -/
def readiness_consistency_score (qdb : List Question) (sessions : List Session) : ℚ :=
  pymax 0 (1 - readiness_avg_variance qdb sessions * 2)

/-- Whether an answer counts for the hesitation average
(advanced_analytics_service.py line 381): status correct or wrong. -/
def counted_answer (a : AnswerRecord) : Bool :=
  a.status == "correct" || a.status == "wrong"

/-- The `avg_hesitation` value (advanced_analytics_service.py lines
376-385). -/
def readiness_avg_hesitation (sessions : List Session) : ℚ :=
  let total_hesitation : ℕ :=
    (sessions.map (fun sess =>
      ((sess.answers.filter counted_answer).map (fun a => a.hesitation_count)).sum)).sum
  let total_answers : ℕ :=
    (sessions.map (fun sess => (sess.answers.filter counted_answer).length)).sum
  if 0 < total_answers then (total_hesitation : ℚ) / (total_answers : ℚ) else 0

/-- The `confidence_score` component
(advanced_analytics_service.py line 386): `max(0, 1 - avg_hesitation*0.2)`. -/
def readiness_confidence_score (sessions : List Session) : ℚ :=
  pymax 0 (1 - readiness_avg_hesitation sessions * (1/5))

/-- The `coverage_score` component (advanced_analytics_service.py lines
388-390): the fraction of document topics whose mean mastery is
positive, 0 when the document has no topics. -/
def readiness_coverage_score (qdb : List Question) (sessions : List Session) : ℚ :=
  if all_topics qdb = [] then 0
  else
    (((all_topics qdb).filter
      (fun t => decide (0 < topic_mastery_mean qdb sessions t))).length : ℚ) /
      ((all_topics qdb).length : ℚ)

/-- The unrounded `overall_score` (advanced_analytics_service.py lines
392-398): weighted sum of the four components, times 100. -/
def readiness_overall_score (qdb : List Question) (sessions : List Session) : ℚ :=
  (readiness_mastery_score qdb sessions * (2/5) +
    readiness_consistency_score qdb sessions * (1/4) +
    readiness_confidence_score sessions * (1/5) +
    readiness_coverage_score qdb sessions * (3/20)) * 100

/-- Translation of `AdvancedAnalyticsService.calculate_exam_readiness`
(advanced_analytics_service.py lines 302-440), over the session and
question data the database would return; the local computations are the
named `readiness_*` definitions above. -/
def calculate_exam_readiness (qdb : List Question) (sessions : List Session) :
    ExamReadinessScore :=
  if sessions = [] then default_readiness
  else
    let topics := all_topics qdb
    let overall_score := readiness_overall_score qdb sessions
    let strong_topics := topics.filter (fun t => decide (4/5 < topic_mastery_mean qdb sessions t))
    let weak_topics := topics.filter (fun t => decide (topic_mastery_mean qdb sessions t < 1/2))
    let inconsistent_topics := topics.filter (fun t => decide (1/10 < topic_variance qdb sessions t))
    let readiness_level :=
      if 85 ≤ overall_score then "Ready"
      else if 70 ≤ overall_score then "Almost Ready"
      else "Needs Work"
    let score_gap := pymax 0 (90 - overall_score)
    let estimated_study_hours := Rat.floor (score_gap * (1/2))
    let priority_actions :=
      (if weak_topics.isEmpty then [] else
        ["Focus on weak topics: " ++ String.intercalate ", " (weak_topics.take 3)]) ++
      (if inconsistent_topics.isEmpty then [] else
        ["Practice inconsistent topics: " ++ String.intercalate ", " (inconsistent_topics.take 2)]) ++
      (if readiness_coverage_score qdb sessions < 4/5 then
        ["Cover more topics to improve breadth"] else []) ++
      (if readiness_confidence_score sessions < 7/10 then
        ["Build confidence: practice under time pressure"] else [])
    { overall_score := pyRound1 overall_score,
      mastery_score := pyRound1 (readiness_mastery_score qdb sessions * 100),
      consistency_score := pyRound1 (readiness_consistency_score qdb sessions * 100),
      confidence_score := pyRound1 (readiness_confidence_score sessions * 100),
      coverage_score := pyRound1 (readiness_coverage_score qdb sessions * 100),
      strong_topics := strong_topics,
      weak_topics := weak_topics,
      inconsistent_topics := inconsistent_topics,
      estimated_study_hours := estimated_study_hours,
      priority_actions := priority_actions,
      readiness_level := readiness_level }

/-! ## Topic mastery aggregator (`analytics_service_v2.py` lines 112-233) -/

/-- One element of the `attempts` list accumulated per topic by
`calculate_topic_mastery_v2` (analytics_service_v2.py lines 143-147);
the stored timestamp is dead for the mastery formula (only the list
position is used) and is omitted. -/
structure MasteryAttempt where
  correct : Bool
  difficulty : ℚ
deriving DecidableEq

instance : Inhabited MasteryAttempt := ⟨⟨false, 0⟩⟩

/-- The attempt record appended for one answered signal. -/
def toAttempt (s : BehavioralSignals) : MasteryAttempt :=
  ⟨s.correct, s.empirical_difficulty⟩

/-- The per-topic attempt list gathered by `calculate_topic_mastery_v2`
(analytics_service_v2.py lines 134-147): the answered signals of the
topic, in input (chronological) order. -/
def topicAttempts (t : String) (signals : List BehavioralSignals) : List MasteryAttempt :=
  (signals.filter (fun s => s.answered && s.topic == t)).map toAttempt

/-- The loop body weight of `_calculate_weighted_mastery`
(analytics_service_v2.py lines 217-229): difficulty weight times
exponential recency decay, for position `i` in a list of length `n`. -/
noncomputable def attemptWeight (n i : ℕ) (a : MasteryAttempt) : ℝ :=
  (1 - (a.difficulty : ℝ)) * Real.exp (-(7/50) * ((n - i - 1 : ℕ) : ℝ))

/-- The running `total_weight` accumulator of the loop, starting at
position `k`. -/
noncomputable def weightTotal (n : ℕ) : ℕ → List MasteryAttempt → ℝ
  | _, [] => 0
  | i, a :: rest => attemptWeight n i a + weightTotal n (i + 1) rest

/-- The running `weighted_sum` accumulator of the loop (correctness times
weight), starting at position `k`. -/
noncomputable def weightedCorrect (n : ℕ) : ℕ → List MasteryAttempt → ℝ
  | _, [] => 0
  | i, a :: rest =>
      (if a.correct then (1:ℝ) else 0) * attemptWeight n i a + weightedCorrect n (i + 1) rest

/-- Translation of `AnalyticsServiceV2._calculate_weighted_mastery`
(analytics_service_v2.py lines 200-233). -/
noncomputable def calculate_weighted_mastery (attempts : List MasteryAttempt) : ℝ :=
  if attempts = [] then 0
  else
    let total_weight := weightTotal attempts.length 0 attempts
    let weighted_sum := weightedCorrect attempts.length 0 attempts
    if 0 < total_weight then weighted_sum / total_weight else 0

/-- The mastery score that `calculate_topic_mastery_v2` stores for a topic
(analytics_service_v2.py lines 171-198): the weighted mastery of the
topic's answered attempts. -/
noncomputable def topic_mastery_score (t : String) (signals : List BehavioralSignals) : ℝ :=
  calculate_weighted_mastery (topicAttempts t signals)

/-- The mastery formula exactly as claim C2 states it:
Sum(correctness_i * weight_i) / Sum(weight_i) with
weight_i = (1 - difficulty_i) * exp(-0.14 * (n - i - 1)), and 0 when the
list is empty or the weights sum to 0. -/
noncomputable def mastery_formula (l : List MasteryAttempt) : ℝ :=
  let n := l.length
  let w : ℕ → ℝ := fun i =>
    (1 - ((l.getD i default).difficulty : ℝ)) * Real.exp (-(7/50) * ((n - i - 1 : ℕ) : ℝ))
  let c : ℕ → ℝ := fun i => if (l.getD i default).correct then 1 else 0
  if l = [] ∨ (∑ i ∈ Finset.range n, w i) = 0 then 0
  else (∑ i ∈ Finset.range n, c i * w i) / (∑ i ∈ Finset.range n, w i)

/-- Per-topic mastery record (`TopicMastery`, models/analytics.py lines
85-105); the `difficulty_breakdown` display dict is omitted (never read
by the ranker). -/
structure TopicMastery where
  topic : String
  total_attempts : ℕ := 0
  correct_attempts : ℕ := 0
  wrong_attempts : ℕ := 0
  mastery_score : ℚ := 0
  mastery_percentage : ℚ := 0
  avg_time_taken : ℚ := 0
  easy_correct : ℕ := 0
  easy_wrong : ℕ := 0
  medium_correct : ℕ := 0
  medium_wrong : ℕ := 0
  hard_correct : ℕ := 0
  hard_wrong : ℕ := 0
deriving DecidableEq

/-- Weakness record (`WeaknessAnalysis`, models/analytics.py lines
116-133); `failure_patterns` (defaulted empty, never set by the ranker)
is omitted. -/
structure WeaknessAnalysis where
  topic : String
  mastery_score : ℚ := 0
  mastery_percentage : ℚ := 0
  weakness_score : ℚ := 0
  exposure_count : ℕ := 0
  confidence_penalty : ℚ := 0
  priority_score : ℚ
  question_ids : List String
  cognitive_scores : List CognitiveScores := []
  recommendation : String
deriving DecidableEq

/-- The Python dict comprehension `{s.question_id: s for s in signals}`
(analytics_service_v2.py line 250): later entries overwrite earlier ones,
so a lookup returns the last signal bearing the id. -/
def signal_by_id (signals : List BehavioralSignals) (qid : String) :
    Option BehavioralSignals :=
  signals.reverse.find? (fun s => s.question_id == qid)

/-- Grouping of cognitive scores by topic
(analytics_service_v2.py lines 247-256): the scores whose signal (found
via `signal_by_id`) belongs to the topic, in input order. -/
def topic_scores (cognitive_scores : List CognitiveScores)
    (signals : List BehavioralSignals) (t : String) : List CognitiveScores :=
  cognitive_scores.filter (fun sc =>
    match signal_by_id signals sc.question_id with
    | some sig => sig.topic == t
    | none => false)

/-- The `topic_questions[topic]` set of the same loop: the distinct
question ids among the topic's scores (Python set, modelled as
first-occurrence dedup; no claim depends on the set's iteration order). -/
def topic_question_ids (cognitive_scores : List CognitiveScores)
    (signals : List BehavioralSignals) (t : String) : List String :=
  ((topic_scores cognitive_scores signals t).map (fun sc => sc.question_id)).dedup

/-- Translation of `AnalyticsServiceV2._calculate_confidence_penalty`
(analytics_service_v2.py lines 300-326). -/
def calculate_confidence_penalty (scores : List CognitiveScores)
    (signals : List BehavioralSignals) : ℚ :=
  if scores = [] then 1
  else
    let avg_confusion := (scores.map (fun s => s.confusion_score)).sum / (scores.length : ℚ)
    let penalty := 1 + avg_confusion * (1/2)
    let marked_count := (scores.filter (fun s =>
      match signal_by_id signals s.question_id with
      | some sig => sig.marked_tricky
      | none => false)).length
    let penalty :=
      if 0 < marked_count then
        penalty + (3/10) * ((marked_count : ℚ) / (scores.length : ℚ))
      else penalty
    pymin penalty 2

/-- Translation of `AnalyticsServiceV2._generate_recommendation`
(analytics_service_v2.py lines 328-348). -/
def generate_recommendation (mastery : TopicMastery)
    (scores : List CognitiveScores) : String :=
  if mastery.easy_correct < mastery.easy_wrong then
    "Critical gap in " ++ mastery.topic ++ " fundamentals - review basics first"
  else
    let avg_knowledge_gap :=
      if scores = [] then 0
      else (scores.map (fun s => s.knowledge_gap_score)).sum / (scores.length : ℚ)
    if 1/2 < avg_knowledge_gap then
      "Struggling with basic " ++ mastery.topic ++ " concepts - focused review needed"
    else
      let avg_confusion :=
        if scores = [] then 0
        else (scores.map (fun s => s.confusion_score)).sum / (scores.length : ℚ)
      if 3/5 < avg_confusion then
        "High confusion in " ++ mastery.topic ++ " - try different explanations or examples"
      else
        "Practice more " ++ mastery.topic ++ " problems to build confidence"

/-- The `WeaknessAnalysis` entry built for one retained topic inside the
loop of `identify_weakness_areas_v2` (analytics_service_v2.py lines
260-293). -/
def weakness_entry (cognitive_scores : List CognitiveScores)
    (signals : List BehavioralSignals) (mastery : TopicMastery) : WeaknessAnalysis :=
  let weakness_score := 1 - mastery.mastery_score
  let qids := topic_question_ids cognitive_scores signals mastery.topic
  let exposure_count := qids.length
  let scores := topic_scores cognitive_scores signals mastery.topic
  let confidence_penalty := calculate_confidence_penalty scores signals
  let priority_score := weakness_score * (exposure_count : ℚ) * confidence_penalty
  { topic := mastery.topic,
    mastery_score := mastery.mastery_score,
    weakness_score := weakness_score,
    exposure_count := exposure_count,
    confidence_penalty := confidence_penalty,
    priority_score := priority_score,
    question_ids := qids,
    cognitive_scores := scores,
    recommendation := generate_recommendation mastery scores }

/-- Descending order on priority scores, the comparison behind
`weakness_list.sort(key=..., reverse=True)`. -/
def priorityGe (a b : WeaknessAnalysis) : Prop :=
  b.priority_score ≤ a.priority_score

instance : DecidableRel priorityGe := fun a b => by unfold priorityGe; infer_instance

instance : IsTotal WeaknessAnalysis priorityGe :=
  ⟨by intro a b; unfold priorityGe; exact le_total _ _⟩

instance : IsTrans WeaknessAnalysis priorityGe :=
  ⟨by intro a b c hab hbc; unfold priorityGe at hab hbc ⊢; exact le_trans hbc hab⟩

/-- Translation of `AnalyticsServiceV2.identify_weakness_areas_v2`
(analytics_service_v2.py lines 235-298): keep topics whose mastery is
not above 0.75, build an entry for each, then stable-sort descending by
priority score (Python's stable `list.sort(reverse=True)`, embedded as
insertion sort by `priorityGe`). -/
def identify_weakness_areas_v2 (topic_mastery : List TopicMastery)
    (cognitive_scores : List CognitiveScores)
    (signals : List BehavioralSignals) : List WeaknessAnalysis :=
  let weakness_list :=
    (topic_mastery.filter (fun m => !decide ((3:ℚ)/4 < m.mastery_score))).map
      (weakness_entry cognitive_scores signals)
  List.insertionSort priorityGe weakness_list

/-- The confidence penalty exactly as claim C4 states it: 1 when there
are no scores, otherwise 1 + 0.5*avg(confusion) plus, when any question
is marked tricky, 0.3*(marked count / exposure count), capped at 2 and
floored at 1. -/
def confidence_penalty_claim (scores : List CognitiveScores)
    (signals : List BehavioralSignals) (exposure_count : ℕ) : ℚ :=
  if scores = [] then 1
  else
    let avg_confusion := (scores.map (fun s => s.confusion_score)).sum / (scores.length : ℚ)
    let marked_count := (scores.filter (fun s =>
      match signal_by_id signals s.question_id with
      | some sig => sig.marked_tricky
      | none => false)).length
    let raw := 1 + (1/2) * avg_confusion +
      (if 0 < marked_count then (3/10) * ((marked_count : ℚ) / (exposure_count : ℚ)) else 0)
    pymax 1 (pymin raw 2)

/-! ## Exam readiness coverage (claim C9) -/

/-- Whether a topic has at least one attempt in the completed sessions —
the predicate the spec claims coverage counts. -/
def topic_has_attempt (qdb : List Question) (sessions : List Session)
    (t : String) : Bool :=
  sessions.any (fun sess => decide (0 < session_topic_total qdb sess t))

/-- Whether a topic has at least one correct attempt in the completed
sessions — the predicate the code actually counts. -/
def topic_has_correct_attempt (qdb : List Question) (sessions : List Session)
    (t : String) : Bool :=
  sessions.any (fun sess => decide (0 < session_topic_correct qdb sess t))

/-- The coverage fraction exactly as claim C9 states it: the fraction of
document topics with at least one attempt. -/
def coverage_fraction_attempted (qdb : List Question) (sessions : List Session) : ℚ :=
  if all_topics qdb = [] then 0
  else (((all_topics qdb).filter (topic_has_attempt qdb sessions)).length : ℚ) /
    ((all_topics qdb).length : ℚ)

/-- The amended coverage fraction: the fraction of document topics with
at least one correct attempt. -/
def coverage_fraction_correct (qdb : List Question) (sessions : List Session) : ℚ :=
  if all_topics qdb = [] then 0
  else (((all_topics qdb).filter (topic_has_correct_attempt qdb sessions)).length : ℚ) /
    ((all_topics qdb).length : ℚ)

/-- The C9 counterexample document: one question on one topic. -/
def c9_qdb : List Question := [{ id := "q1", topic := "t" }]

/-- The C9 counterexample session: the single question attempted and
answered wrong. -/
def c9_sessions : List Session :=
  [{ questions := ["q1"], answers := [{ question_id := "q1", status := "wrong" }] }]

/-! ## Theorems -/

theorem pymin_eq_min (a b : ℚ) : pymin a b = min a b := (min_def a b).symm

theorem pymax_eq_max (a b : ℚ) : pymax a b = max a b := by
  unfold pymax
  rcases le_total a b with h | h
  · rcases eq_or_lt_of_le h with rfl | hlt
    · simp
    · rw [if_neg (not_le.mpr hlt), max_eq_right h]
  · rw [if_pos h, max_eq_left h]

/-- C1: for every BehavioralSignal, `compute_cognitive_scores` equals the
fixed threshold table: skipped gives avoidance 0.9 (difficulty > 0.7) or
0.6 and zeros elsewhere; answered-incorrect gives guessing 0.8 / 0.5 / 0,
confusion min(0.7 + min(hesitation*0.1, 0.3), 1) when slow, knowledge gap
0.9 on easy questions, confidence 0; answered-correct gives confidence
0.9 / 0.7 / 0 and zeros elsewhere. -/
theorem c1_compute_cognitive_scores_eq_table (s : BehavioralSignals) :
    compute_cognitive_scores s = cognitive_scores_claim_table s := by
  unfold compute_cognitive_scores cognitive_scores_claim_table
  unfold FAST_THRESHOLD SLOW_THRESHOLD EASY_DIFFICULTY HARD_DIFFICULTY
  rcases s with ⟨qid, t, ans, cor, ch, h, mt, d, top, ld⟩
  cases ans <;> cases cor <;> simp only [Bool.false_eq_true, if_true, if_false] <;>
    split_ifs <;> first
      | rfl
      | (exfalso; omega)
      | (exfalso; tauto)

/-- C5: for every prior state and quality, the returned ease factor is
`max(1.3, ease + (0.1 - (5-q)(0.08 + (5-q)*0.02)))`, hence always at least
1.3; quality below 3 resets repetitions to 0 and interval to 1; otherwise
repetitions increment and the interval is 1, 6, or round(interval*ease')
according to the new repetition count. -/
theorem c5_sm2_transition (i r : ℤ) (e : ℚ) (q : ℤ) :
    (calculate_next_review i r e q).2.2 =
      max (13/10) (e + (1/10 - (5 - (q : ℚ)) * (2/25 + (5 - (q : ℚ)) * (1/50)))) ∧
    (13/10 : ℚ) ≤ (calculate_next_review i r e q).2.2 ∧
    (if q < 3 then
       (calculate_next_review i r e q).2.1 = 0 ∧ (calculate_next_review i r e q).1 = 1
     else
       (calculate_next_review i r e q).2.1 = r + 1 ∧
       (calculate_next_review i r e q).1 =
         (if r + 1 = 1 then 1 else if r + 1 = 2 then 6
          else pyRound ((i : ℚ) * (calculate_next_review i r e q).2.2))) := by
  unfold calculate_next_review
  by_cases hq : q < 3 <;> simp [hq, pymax_eq_max, le_max_left]

/-- C6 counterexample: `calculate_next_review(1, 0, 2.5, 4)` returns ease
factor exactly 2.5, which is not approximately 2.56 (off by 0.06, beyond
any reasonable tolerance such as 0.01). -/
theorem c6_counterexample :
    (calculate_next_review 1 0 (5/2) 4).2.2 = 5/2 ∧
    ¬ |(calculate_next_review 1 0 (5/2) 4).2.2 - 64/25| ≤ 1/100 := by
  have hval : (calculate_next_review 1 0 (5/2) 4).2.2 = 5/2 := by
    norm_num [calculate_next_review, pymax]
  refine ⟨hval, ?_⟩
  rw [hval, show (5/2 : ℚ) - 64/25 = -(3/50) by norm_num, abs_neg,
    abs_of_nonneg (by norm_num : (0:ℚ) ≤ 3/50)]
  norm_num

/-- C6 amended: `calculate_next_review(interval=1, repetitions=0,
ease_factor=2.5, quality=4)` returns interval 1, repetitions 1, and ease
factor exactly 2.5 (the quality-4 ease adjustment is 0.1 - 1*(0.08+0.02) = 0). -/
theorem c6_scenario_b :
    calculate_next_review 1 0 (5/2) 4 = (1, 1, 5/2) := by
  norm_num [calculate_next_review, pymax]

theorem tier_of_never_answered {q : QuestionPoolEntry}
    (h : q.times_answered = 0) : tier q = 0 := by
  unfold tier priority_score_key
  simp [h]

theorem tier_of_answered_wrong {q : QuestionPoolEntry}
    (h : q.times_correct < q.times_answered) : tier q = 1 := by
  have hta : ¬ q.times_answered = 0 := by omega
  unfold tier priority_score_key
  simp [hta, h]

theorem tier_of_mastered {q : QuestionPoolEntry}
    (heq : q.times_correct = q.times_answered) (h2 : 2 ≤ q.times_correct) :
    tier q = 3 := by
  have hta : ¬ q.times_answered = 0 := by omega
  have hnlt : ¬ q.times_correct < q.times_answered := by omega
  have hne1 : ¬ q.times_correct = 1 := by omega
  unfold tier priority_score_key
  simp [hta, hnlt, hne1]

/-- In the prioritized output, tiers are non-decreasing along positions. -/
theorem prioritize_tier_mono (qs : List QuestionPoolEntry) (i j : ℕ)
    (hi : i < (prioritize_questions qs).length)
    (hj : j < (prioritize_questions qs).length) (hij : i < j) :
    tier ((prioritize_questions qs).getD i default) ≤
      tier ((prioritize_questions qs).getD j default) := by
  have hsorted : List.Sorted keyLe (prioritize_questions qs) :=
    List.sorted_insertionSort keyLe qs
  have hpair := List.pairwise_iff_getElem.mp hsorted i j hi hj hij
  rw [List.getD_eq_getElem _ _ hi, List.getD_eq_getElem _ _ hj]
  unfold keyLe at hpair
  unfold tier
  omega

/-- C8: insufficient data never raises — with fewer than two trajectory
points the learning velocity is the zeroed default (velocity 0,
acceleration 0, `sessions_to_mastery = none`), and with zero completed
sessions exam readiness is the documented default object with
overall_score 0 and readiness_level "Not Started". -/
theorem c8_insufficient_data_defaults :
    (∀ (qdb : List Question) (sessions : List Session) (t : String),
      (mastery_trajectory qdb sessions t).length < 2 →
      (calculate_learning_velocity t qdb sessions).velocity = 0 ∧
      (calculate_learning_velocity t qdb sessions).acceleration = 0 ∧
      (calculate_learning_velocity t qdb sessions).sessions_to_mastery = none) ∧
    (∀ qdb : List Question, calculate_exam_readiness qdb [] = default_readiness) ∧
    default_readiness.overall_score = 0 ∧
    default_readiness.readiness_level = "Not Started" := by
  refine ⟨?_, ?_, rfl, rfl⟩
  · intro qdb sessions t h
    unfold calculate_learning_velocity
    rw [if_pos h]
    exact ⟨rfl, rfl, rfl⟩
  · intro qdb
    unfold calculate_exam_readiness
    rw [if_pos rfl]

/-- Witness for C8: the empty database and session list — the trajectory
is empty, so the velocity defaults apply, and readiness is the default
object. -/
theorem c8_insufficient_data_defaults_witness :
    (calculate_learning_velocity "t" [] []).velocity = 0 ∧
    (calculate_learning_velocity "t" [] []).acceleration = 0 ∧
    (calculate_learning_velocity "t" [] []).sessions_to_mastery = none ∧
    calculate_exam_readiness [] [] = default_readiness := by
  have h := c8_insufficient_data_defaults.1 [] [] "t" (by simp [mastery_trajectory])
  exact ⟨h.1, h.2.1, h.2.2, c8_insufficient_data_defaults.2.1 []⟩

theorem weightTotal_eq_sum (n : ℕ) (l : List MasteryAttempt) :
    ∀ k, weightTotal n k l =
      ∑ i ∈ Finset.range l.length, attemptWeight n (k + i) (l.getD i default) := by
  induction l with
  | nil => intro k; simp [weightTotal]
  | cons a rest ih =>
    intro k
    rw [weightTotal, ih (k + 1), List.length_cons, Finset.sum_range_succ']
    simp only [List.getD_cons_succ, List.getD_cons_zero, Nat.add_zero]
    rw [add_comm (attemptWeight n k a)]
    congr 1
    apply Finset.sum_congr rfl
    intro i _
    have harg : k + 1 + i = k + (i + 1) := by omega
    rw [harg]

theorem weightedCorrect_eq_sum (n : ℕ) (l : List MasteryAttempt) :
    ∀ k, weightedCorrect n k l =
      ∑ i ∈ Finset.range l.length,
        (if (l.getD i default).correct then (1:ℝ) else 0) *
          attemptWeight n (k + i) (l.getD i default) := by
  induction l with
  | nil => intro k; simp [weightedCorrect]
  | cons a rest ih =>
    intro k
    rw [weightedCorrect, ih (k + 1), List.length_cons, Finset.sum_range_succ']
    simp only [List.getD_cons_succ, List.getD_cons_zero, Nat.add_zero]
    rw [add_comm ((if a.correct then (1:ℝ) else 0) * attemptWeight n k a)]
    congr 1
    apply Finset.sum_congr rfl
    intro i _
    have harg : k + 1 + i = k + (i + 1) := by omega
    rw [harg]

theorem attemptWeight_nonneg (n i : ℕ) {a : MasteryAttempt} (h : a.difficulty ≤ 1) :
    0 ≤ attemptWeight n i a := by
  unfold attemptWeight
  apply mul_nonneg
  · have : (a.difficulty : ℝ) ≤ 1 := by exact_mod_cast h
    linarith
  · exact le_of_lt (Real.exp_pos _)

theorem weightTotal_nonneg (n : ℕ) (l : List MasteryAttempt)
    (h : ∀ a ∈ l, a.difficulty ≤ 1) : ∀ k, 0 ≤ weightTotal n k l := by
  induction l with
  | nil => intro k; rw [weightTotal]
  | cons a rest ih =>
    intro k
    rw [weightTotal]
    have h1 := attemptWeight_nonneg n k (h a (List.mem_cons_self a rest))
    have h2 := ih (fun x hx => h x (List.mem_cons_of_mem a hx)) (k + 1)
    linarith

theorem weightedCorrect_nonneg (n : ℕ) (l : List MasteryAttempt)
    (h : ∀ a ∈ l, a.difficulty ≤ 1) : ∀ k, 0 ≤ weightedCorrect n k l := by
  induction l with
  | nil => intro k; rw [weightedCorrect]
  | cons a rest ih =>
    intro k
    rw [weightedCorrect]
    have h1 := attemptWeight_nonneg n k (h a (List.mem_cons_self a rest))
    have h2 := ih (fun x hx => h x (List.mem_cons_of_mem a hx)) (k + 1)
    have h3 : 0 ≤ (if a.correct then (1:ℝ) else 0) := by split_ifs <;> norm_num
    nlinarith

theorem weightedCorrect_le_weightTotal (n : ℕ) (l : List MasteryAttempt)
    (h : ∀ a ∈ l, a.difficulty ≤ 1) : ∀ k, weightedCorrect n k l ≤ weightTotal n k l := by
  induction l with
  | nil => intro k; rw [weightedCorrect, weightTotal]
  | cons a rest ih =>
    intro k
    rw [weightedCorrect, weightTotal]
    have h1 := attemptWeight_nonneg n k (h a (List.mem_cons_self a rest))
    have h2 := ih (fun x hx => h x (List.mem_cons_of_mem a hx)) (k + 1)
    have h3 : (if a.correct then (1:ℝ) else 0) * attemptWeight n k a ≤ attemptWeight n k a := by
      split_ifs <;> nlinarith
    linarith

/-- C2: the mastery score of a topic is computed over exactly the
answered signals of that topic in order, equals
Sum(correctness_i * w_i)/Sum(w_i) with
w_i = (1 - difficulty_i) * exp(-0.14*(n-i-1)) (0 on an empty list or
vanishing weight sum), and lies in [0, 1] whenever every empirical
difficulty lies in [0, 1]. -/
theorem c2_topic_mastery_formula (t : String) (signals : List BehavioralSignals)
    (h : ∀ s ∈ signals, 0 ≤ s.empirical_difficulty ∧ s.empirical_difficulty ≤ 1) :
    topic_mastery_score t signals = mastery_formula (topicAttempts t signals) ∧
    0 ≤ topic_mastery_score t signals ∧ topic_mastery_score t signals ≤ 1 := by
  have hd : ∀ a ∈ topicAttempts t signals, a.difficulty ≤ 1 := by
    intro a ha
    rcases List.mem_map.mp ha with ⟨s, hs, rfl⟩
    exact (h s (List.mem_filter.mp hs).1).2
  unfold topic_mastery_score
  set l := topicAttempts t signals with hl
  have hwt := weightTotal_eq_sum l.length l 0
  have hwc := weightedCorrect_eq_sum l.length l 0
  simp only [Nat.zero_add] at hwt hwc
  have hnn := weightTotal_nonneg l.length l hd 0
  have hcn := weightedCorrect_nonneg l.length l hd 0
  have hle := weightedCorrect_le_weightTotal l.length l hd 0
  simp only [attemptWeight] at hwt hwc
  refine ⟨?_, ?_, ?_⟩
  · unfold calculate_weighted_mastery mastery_formula
    by_cases h0 : l = []
    · simp [h0]
    · dsimp only
      rw [if_neg h0, ← hwt, ← hwc]
      by_cases hz : weightTotal l.length 0 l = 0
      · have hnpos : ¬ 0 < weightTotal l.length 0 l := by rw [hz]; exact lt_irrefl 0
        rw [if_pos (Or.inr hz), if_neg hnpos]
      · have hcond : ¬ (l = [] ∨ weightTotal l.length 0 l = 0) := by
          push_neg
          exact ⟨h0, hz⟩
        have hpos : 0 < weightTotal l.length 0 l := lt_of_le_of_ne hnn (Ne.symm hz)
        rw [if_neg hcond, if_pos hpos]
  · unfold calculate_weighted_mastery
    by_cases h0 : l = []
    · simp [h0]
    · dsimp only
      rw [if_neg h0]
      by_cases hpos : 0 < weightTotal l.length 0 l
      · rw [if_pos hpos]
        exact div_nonneg hcn (le_of_lt hpos)
      · rw [if_neg hpos]
  · unfold calculate_weighted_mastery
    by_cases h0 : l = []
    · simp [h0]
    · dsimp only
      rw [if_neg h0]
      by_cases hpos : 0 < weightTotal l.length 0 l
      · rw [if_pos hpos, div_le_one hpos]
        exact hle
      · rw [if_neg hpos]
        norm_num

/-- Witness for C2: a single answered attempt on a question of empirical
difficulty 0.5 gives a mastery score inside [0, 1] that matches the
claim's formula. -/
theorem c2_topic_mastery_formula_witness :
    topic_mastery_score "t"
        [{ question_id := "q", time_spent := 10, answered := true, correct := true,
           changed_answer := false, hesitation_count := 0, marked_tricky := false,
           empirical_difficulty := 1/2, topic := "t", llm_difficulty := "medium" }] =
      mastery_formula (topicAttempts "t"
        [{ question_id := "q", time_spent := 10, answered := true, correct := true,
           changed_answer := false, hesitation_count := 0, marked_tricky := false,
           empirical_difficulty := 1/2, topic := "t", llm_difficulty := "medium" }]) ∧
    0 ≤ topic_mastery_score "t"
        [{ question_id := "q", time_spent := 10, answered := true, correct := true,
           changed_answer := false, hesitation_count := 0, marked_tricky := false,
           empirical_difficulty := 1/2, topic := "t", llm_difficulty := "medium" }] ∧
    topic_mastery_score "t"
        [{ question_id := "q", time_spent := 10, answered := true, correct := true,
           changed_answer := false, hesitation_count := 0, marked_tricky := false,
           empirical_difficulty := 1/2, topic := "t", llm_difficulty := "medium" }] ≤ 1 :=
  c2_topic_mastery_formula "t" _ (by norm_num)

/-- The confidence penalty exceeds 1 whenever the confusion scores it
averages are nonnegative. -/
theorem one_le_calculate_confidence_penalty (scores : List CognitiveScores)
    (signals : List BehavioralSignals)
    (h : ∀ sc ∈ scores, 0 ≤ sc.confusion_score) :
    1 ≤ calculate_confidence_penalty scores signals := by
  unfold calculate_confidence_penalty
  split_ifs with h0
  · exact le_refl 1
  all_goals {
    rw [pymin_eq_min, le_min_iff]
    refine ⟨?_, by norm_num⟩
    have hlen : (0:ℚ) < (scores.length : ℚ) := by
      have : scores ≠ [] := h0
      have : 0 < scores.length := List.length_pos.mpr this
      exact_mod_cast this
    have hsum : 0 ≤ (scores.map (fun s => s.confusion_score)).sum := by
      apply List.sum_nonneg
      intro x hx
      rcases List.mem_map.mp hx with ⟨sc, hsc, rfl⟩
      exact h sc hsc
    have havg : 0 ≤ (scores.map (fun s => s.confusion_score)).sum / (scores.length : ℚ) :=
      div_nonneg hsum (le_of_lt hlen)
    have hfrac : (0:ℚ) ≤ (3/10) *
        (((scores.filter (fun s =>
          match signal_by_id signals s.question_id with
          | some sig => sig.marked_tricky
          | none => false)).length : ℚ) / (scores.length : ℚ)) := by
      apply mul_nonneg (by norm_num)
      exact div_nonneg (by positivity) (le_of_lt hlen)
    split_ifs <;> nlinarith
  }

/-- The confidence penalty never exceeds 2 (it is capped by `min`). -/
theorem calculate_confidence_penalty_le_two (scores : List CognitiveScores)
    (signals : List BehavioralSignals) :
    calculate_confidence_penalty scores signals ≤ 2 := by
  unfold calculate_confidence_penalty
  split_ifs
  · norm_num
  all_goals rw [pymin_eq_min]; exact min_le_right _ _

/-- C3: the weakness ranker never outputs a topic with mastery above
0.75; every output entry has weakness = 1 - mastery and priority =
weakness * exposure * penalty, so (given the pipeline invariant that
confusion scores are nonnegative) priority is nonnegative; and the
output is sorted descending by priority score. -/
theorem c3_identify_weakness_areas (tm : List TopicMastery)
    (cs : List CognitiveScores) (sigs : List BehavioralSignals)
    (hconf : ∀ sc ∈ cs, 0 ≤ sc.confusion_score) :
    (∀ w ∈ identify_weakness_areas_v2 tm cs sigs,
      ¬ (3:ℚ)/4 < w.mastery_score ∧
      w.weakness_score = 1 - w.mastery_score ∧
      w.priority_score = w.weakness_score * (w.exposure_count : ℚ) * w.confidence_penalty ∧
      0 ≤ w.priority_score) ∧
    List.Sorted priorityGe (identify_weakness_areas_v2 tm cs sigs) := by
  constructor
  · intro w hw
    have hw2 : w ∈ (tm.filter (fun m => !decide ((3:ℚ)/4 < m.mastery_score))).map
        (weakness_entry cs sigs) :=
      (List.perm_insertionSort priorityGe _).mem_iff.mp hw
    rcases List.mem_map.mp hw2 with ⟨m, hmf, rfl⟩
    rcases List.mem_filter.mp hmf with ⟨hm, hpred⟩
    have hmast : ¬ (3:ℚ)/4 < m.mastery_score := by
      simpa using hpred
    refine ⟨hmast, rfl, rfl, ?_⟩
    have hscores : ∀ sc ∈ topic_scores cs sigs m.topic, 0 ≤ sc.confusion_score := by
      intro sc hsc
      exact hconf sc (List.mem_filter.mp hsc).1
    have hpen := one_le_calculate_confidence_penalty _ sigs hscores
    have hweak : (0:ℚ) ≤ 1 - m.mastery_score := by linarith [not_lt.mp hmast]
    exact mul_nonneg (mul_nonneg hweak (by positivity)) (by linarith)
  · exact List.sorted_insertionSort priorityGe _

/-- A single retained topic yields a single weakness entry. -/
theorem identify_weakness_single (m : TopicMastery) (cs : List CognitiveScores)
    (sigs : List BehavioralSignals) (h : ¬ (3:ℚ)/4 < m.mastery_score) :
    identify_weakness_areas_v2 [m] cs sigs = [weakness_entry cs sigs m] := by
  unfold identify_weakness_areas_v2
  rw [show ([m].filter (fun x => !decide ((3:ℚ)/4 < x.mastery_score))) = [m] by
    simp [List.filter, h]]
  rfl

/-- Witness for C3: the ranker instantiated on a single topic of mastery
0.5 with no cognitive scores — its entry has nonnegative priority and
the output is sorted. -/
theorem c3_identify_weakness_areas_witness :
    0 ≤ (weakness_entry [] [] { topic := "t", mastery_score := 1/2 }).priority_score ∧
    List.Sorted priorityGe
      (identify_weakness_areas_v2 [{ topic := "t", mastery_score := 1/2 }] [] []) := by
  have hmem : weakness_entry [] [] { topic := "t", mastery_score := 1/2 } ∈
      identify_weakness_areas_v2 [{ topic := "t", mastery_score := 1/2 }] [] [] := by
    rw [identify_weakness_single _ _ _ (by norm_num)]
    exact List.mem_singleton.mpr rfl
  exact ⟨((c3_identify_weakness_areas [{ topic := "t", mastery_score := 1/2 }] [] []
      (by simp)).1 _ hmem).2.2.2,
    (c3_identify_weakness_areas [{ topic := "t", mastery_score := 1/2 }] [] []
      (by simp)).2⟩

theorem pymax_one_of_le {y : ℚ} (h : 1 ≤ y) : pymax 1 y = y := by
  unfold pymax
  split_ifs with hy
  · exact le_antisymm h hy
  · rfl

/-- On score lists whose length equals the exposure count and whose
confusion scores are nonnegative, the source's penalty computation agrees
with the claim's formula. -/
theorem confidence_penalty_claim_eq (scores : List CognitiveScores)
    (signals : List BehavioralSignals) (exposure_count : ℕ)
    (hexp : exposure_count = scores.length)
    (h : ∀ sc ∈ scores, 0 ≤ sc.confusion_score) :
    confidence_penalty_claim scores signals exposure_count =
      calculate_confidence_penalty scores signals := by
  subst hexp
  unfold confidence_penalty_claim calculate_confidence_penalty
  split_ifs with h0
  · rfl
  · dsimp only
    have hlen : (0:ℚ) < (scores.length : ℚ) := by
      have : 0 < scores.length := List.length_pos.mpr h0
      exact_mod_cast this
    have hsum : 0 ≤ (scores.map (fun s => s.confusion_score)).sum :=
      List.sum_nonneg (by
        intro x hx
        rcases List.mem_map.mp hx with ⟨sc, hsc, rfl⟩
        exact h sc hsc)
    have havg : 0 ≤ (scores.map (fun s => s.confusion_score)).sum / (scores.length : ℚ) :=
      div_nonneg hsum (le_of_lt hlen)
    set A := (scores.map (fun s => s.confusion_score)).sum / (scores.length : ℚ) with hA
    set M := (scores.filter (fun s =>
      match signal_by_id signals s.question_id with
      | some sig => sig.marked_tricky
      | none => false)).length with hM
    have hinner : 1 + (1/2) * A +
        (if 0 < M then (3/10) * ((M : ℚ) / (scores.length : ℚ)) else 0) =
        (if 0 < M then 1 + A * (1/2) + (3/10) * ((M : ℚ) / (scores.length : ℚ))
         else 1 + A * (1/2)) := by
      split_ifs <;> ring
    rw [hinner]
    apply pymax_one_of_le
    rw [pymin_eq_min, le_min_iff]
    have hfrac : (0:ℚ) ≤ (3/10) * ((M : ℚ) / (scores.length : ℚ)) := by
      apply mul_nonneg (by norm_num)
      exact div_nonneg (by positivity) (le_of_lt hlen)
    refine ⟨?_, by norm_num⟩
    split_ifs <;> nlinarith

/-- C4: every entry produced by the weakness ranker carries the claimed
confidence penalty — 1 with no scores, else 1 + 0.5*avg(confusion) +
0.3*(marked/exposure) when any question is marked tricky, capped at 2 and
floored at 1 — and the penalty always lies in [1, 2].  The hypotheses are
the pipeline invariants: one cognitive score per question (distinct
question ids) and nonnegative confusion scores. -/
theorem c4_confidence_penalty (tm : List TopicMastery)
    (cs : List CognitiveScores) (sigs : List BehavioralSignals)
    (hdist : (cs.map (fun sc => sc.question_id)).Nodup)
    (hconf : ∀ sc ∈ cs, 0 ≤ sc.confusion_score) :
    ∀ w ∈ identify_weakness_areas_v2 tm cs sigs,
      w.confidence_penalty = confidence_penalty_claim w.cognitive_scores sigs w.exposure_count ∧
      1 ≤ w.confidence_penalty ∧ w.confidence_penalty ≤ 2 := by
  intro w hw
  have hw2 : w ∈ (tm.filter (fun m => !decide ((3:ℚ)/4 < m.mastery_score))).map
      (weakness_entry cs sigs) :=
    (List.perm_insertionSort priorityGe _).mem_iff.mp hw
  rcases List.mem_map.mp hw2 with ⟨m, hmf, rfl⟩
  have hscores : ∀ sc ∈ topic_scores cs sigs m.topic, 0 ≤ sc.confusion_score := by
    intro sc hsc
    exact hconf sc (List.mem_filter.mp hsc).1
  have hnd : ((topic_scores cs sigs m.topic).map (fun sc => sc.question_id)).Nodup := by
    have hsub : List.Sublist ((topic_scores cs sigs m.topic).map (fun sc => sc.question_id))
        (cs.map (fun sc => sc.question_id)) :=
      List.Sublist.map _ (List.filter_sublist cs)
    exact hdist.sublist hsub
  have hexp : (topic_question_ids cs sigs m.topic).length =
      (topic_scores cs sigs m.topic).length := by
    unfold topic_question_ids
    rw [List.dedup_eq_self.mpr hnd, List.length_map]
  refine ⟨?_, one_le_calculate_confidence_penalty _ sigs hscores,
    calculate_confidence_penalty_le_two _ sigs⟩
  exact (confidence_penalty_claim_eq _ sigs _ hexp hscores).symm

/-- Witness for C4: the ranker run on one topic with one
marked-tricky question; the resulting entry's penalty is
1 + 0.5*0.2 + 0.3*(1/1) = 1.4, inside [1, 2]. -/
theorem c4_confidence_penalty_witness :
    1 ≤ (weakness_entry
        [{ question_id := "q", confusion_score := 1/5 }]
        [{ question_id := "q", time_spent := 30, answered := true, correct := false,
           changed_answer := false, hesitation_count := 0, marked_tricky := true,
           empirical_difficulty := 1/2, topic := "t", llm_difficulty := "medium" }]
        { topic := "t", mastery_score := 1/2 }).confidence_penalty ∧
    (weakness_entry
        [{ question_id := "q", confusion_score := 1/5 }]
        [{ question_id := "q", time_spent := 30, answered := true, correct := false,
           changed_answer := false, hesitation_count := 0, marked_tricky := true,
           empirical_difficulty := 1/2, topic := "t", llm_difficulty := "medium" }]
        { topic := "t", mastery_score := 1/2 }).confidence_penalty ≤ 2 := by
  have hmem : weakness_entry
      [{ question_id := "q", confusion_score := 1/5 }]
      [{ question_id := "q", time_spent := 30, answered := true, correct := false,
         changed_answer := false, hesitation_count := 0, marked_tricky := true,
         empirical_difficulty := 1/2, topic := "t", llm_difficulty := "medium" }]
      { topic := "t", mastery_score := 1/2 } ∈
      identify_weakness_areas_v2 [{ topic := "t", mastery_score := 1/2 }]
        [{ question_id := "q", confusion_score := 1/5 }]
        [{ question_id := "q", time_spent := 30, answered := true, correct := false,
           changed_answer := false, hesitation_count := 0, marked_tricky := true,
           empirical_difficulty := 1/2, topic := "t", llm_difficulty := "medium" }] := by
    rw [identify_weakness_single _ _ _ (by norm_num)]
    exact List.mem_singleton.mpr rfl
  have h := c4_confidence_penalty _ _ _ (by simp) (by norm_num) _ hmem
  exact ⟨h.2.1, h.2.2⟩

/-- C7: the prioritizer sorts ascending by the lexicographic key
(tier, last_used_at) with tier 0 = never answered, tier 1 = wrong more
than right, tier 2 = correct exactly once, tier 3 = everything else, and
missing last_used_at treated as the minimum timestamp; consequently a
never-answered question always ends up before a wrong-more-than-right
question, which always ends up before a mastered question (all attempts
correct, at least two of them — tier 3); and on the Scenario C pool,
requesting 2 questions returns the never-answered entry then the
wrong-more-than-right entry with needs_generation = false. -/
theorem c7_prioritize_questions_order :
    (∀ qs : List QuestionPoolEntry, List.Sorted keyLe (prioritize_questions qs)) ∧
    (∀ (qs : List QuestionPoolEntry) (i j : ℕ),
      i < (prioritize_questions qs).length →
      j < (prioritize_questions qs).length →
      ((prioritize_questions qs).getD i default).times_answered = 0 →
      ((prioritize_questions qs).getD j default).times_correct <
        ((prioritize_questions qs).getD j default).times_answered →
      i < j) ∧
    (∀ (qs : List QuestionPoolEntry) (i j : ℕ),
      i < (prioritize_questions qs).length →
      j < (prioritize_questions qs).length →
      ((prioritize_questions qs).getD i default).times_correct <
        ((prioritize_questions qs).getD i default).times_answered →
      ((prioritize_questions qs).getD j default).times_correct =
        ((prioritize_questions qs).getD j default).times_answered →
      2 ≤ ((prioritize_questions qs).getD j default).times_correct →
      i < j) ∧
    select_questions scenario_c_pool 2 =
      ([{ id := "fresh" }, { id := "wrong", times_answered := 5, times_correct := 1 }],
        false) := by
  refine ⟨fun qs => List.sorted_insertionSort keyLe qs, ?_, ?_, by decide⟩
  · intro qs i j hi hj h0 h1
    have hti := tier_of_never_answered h0
    have htj := tier_of_answered_wrong h1
    rcases Nat.lt_trichotomy i j with h | h | h
    · exact h
    · exfalso; rw [h, htj] at hti; exact absurd hti (by omega)
    · exfalso
      have := prioritize_tier_mono qs j i hj hi h
      rw [hti, htj] at this
      omega
  · intro qs i j hi hj h1 heq h2
    have hti := tier_of_answered_wrong h1
    have htj := tier_of_mastered heq h2
    rcases Nat.lt_trichotomy i j with h | h | h
    · exact h
    · exfalso; rw [h, htj] at hti; exact absurd hti (by omega)
    · exfalso
      have := prioritize_tier_mono qs j i hj hi h
      rw [hti, htj] at this
      omega

/-- Witness for C7: the ordering facts instantiated on the Scenario C
pool — the sorted output is [fresh, wrong, mastered], so the
never-answered entry (position 0) precedes the wrong-more-than-right
entry (position 1), which precedes the mastered entry (position 2). -/
theorem c7_prioritize_questions_order_witness :
    List.Sorted keyLe (prioritize_questions scenario_c_pool) ∧ (0:ℕ) < 1 ∧ (1:ℕ) < 2 :=
  ⟨c7_prioritize_questions_order.1 scenario_c_pool,
   c7_prioritize_questions_order.2.1 scenario_c_pool 0 1
     (by decide) (by decide) (by decide) (by decide),
   c7_prioritize_questions_order.2.2.1 scenario_c_pool 1 2
     (by decide) (by decide) (by decide) (by decide) (by decide)⟩

/-- C10: the prioritizer returns a permutation of its input — it never
removes or adds entries, and in particular does not filter out mastered
entries (the non-mastered filter lives only in the database query of
`get_available_questions`); on the Scenario C pool with 3 questions
requested, the mastered entry is selected last. -/
theorem c10_prioritize_questions_permutation :
    (∀ qs : List QuestionPoolEntry, List.Perm (prioritize_questions qs) qs) ∧
    (select_questions scenario_c_pool 3).1 =
      [{ id := "fresh" },
       { id := "wrong", times_answered := 5, times_correct := 1 },
       { id := "mastered", times_answered := 2, times_correct := 2, is_mastered := true }] ∧
    (select_questions scenario_c_pool 3).2 = false :=
  ⟨fun qs => List.perm_insertionSort keyLe qs, by decide, by decide⟩

theorem listMean_nonneg (l : List ℚ) (h : ∀ x ∈ l, 0 ≤ x) : 0 ≤ listMean l :=
  div_nonneg (List.sum_nonneg h) (Nat.cast_nonneg _)

theorem listMean_le_one (l : List ℚ) (h : ∀ x ∈ l, x ≤ 1) : listMean l ≤ 1 := by
  unfold listMean
  rcases eq_or_ne l [] with rfl | hne
  · simp
  · have hlen : (0:ℚ) < (l.length : ℚ) := by
      exact_mod_cast List.length_pos.mpr hne
    rw [div_le_one hlen]
    calc l.sum ≤ l.length • (1:ℚ) := List.sum_le_card_nsmul l 1 h
      _ = (l.length : ℚ) := by simp

theorem session_topic_correct_le_total (qdb : List Question) (sess : Session)
    (t : String) : session_topic_correct qdb sess t ≤ session_topic_total qdb sess t := by
  unfold session_topic_correct session_topic_total
  apply List.countP_mono_left
  intro a _ h
  simp only [Bool.and_eq_true] at h
  exact h.1

theorem session_mastery_some_iff (qdb : List Question) (sess : Session)
    (t : String) (x : ℚ) :
    session_mastery qdb t sess = some x ↔
      0 < session_topic_total qdb sess t ∧
      x = (session_topic_correct qdb sess t : ℚ) / (session_topic_total qdb sess t : ℚ) := by
  unfold session_mastery
  dsimp only
  split_ifs with h
  · simp [h, eq_comm]
  · simp [h]

theorem session_mastery_bounds {qdb : List Question} {sess : Session}
    {t : String} {x : ℚ} (h : session_mastery qdb t sess = some x) :
    0 ≤ x ∧ x ≤ 1 := by
  rcases (session_mastery_some_iff qdb sess t x).mp h with ⟨hpos, rfl⟩
  constructor
  · positivity
  · rw [div_le_one (by exact_mod_cast hpos)]
    exact_mod_cast session_topic_correct_le_total qdb sess t

theorem topic_mastery_mean_bounds (qdb : List Question) (sessions : List Session)
    (t : String) :
    0 ≤ topic_mastery_mean qdb sessions t ∧ topic_mastery_mean qdb sessions t ≤ 1 := by
  unfold topic_mastery_mean
  dsimp only
  split_ifs with h
  · norm_num
  · have hx : ∀ x ∈ sessions.filterMap (session_mastery qdb t), 0 ≤ x ∧ x ≤ 1 := by
      intro x hx
      rcases List.mem_filterMap.mp hx with ⟨sess, _, hs⟩
      exact session_mastery_bounds hs
    exact ⟨listMean_nonneg _ (fun x hm => (hx x hm).1),
      listMean_le_one _ (fun x hm => (hx x hm).2)⟩

theorem sampleVariance_nonneg (l : List ℚ) (h : 1 < l.length) :
    0 ≤ sampleVariance l := by
  unfold sampleVariance
  apply div_nonneg
  · apply List.sum_nonneg
    intro x hx
    rcases List.mem_map.mp hx with ⟨y, _, rfl⟩
    positivity
  · have : (1:ℚ) < (l.length : ℚ) := by exact_mod_cast h
    linarith

theorem topic_variance_nonneg (qdb : List Question) (sessions : List Session)
    (t : String) : 0 ≤ topic_variance qdb sessions t := by
  unfold topic_variance
  dsimp only
  split_ifs with h1 h2
  · exact le_refl 0
  · exact sampleVariance_nonneg _ h2
  · exact le_refl 0

theorem pymax_zero_bounds {x : ℚ} (h : x ≤ 1) :
    0 ≤ pymax 0 x ∧ pymax 0 x ≤ 1 := by
  unfold pymax
  split_ifs with hx
  · norm_num
  · exact ⟨le_of_lt (not_le.mp hx), h⟩

theorem pyRound_nonneg {y : ℚ} (h : 0 ≤ y) : 0 ≤ pyRound y := by
  have h0 : 0 ≤ Rat.floor y := Rat.le_floor.mpr (by exact_mod_cast h)
  unfold pyRound
  dsimp only
  split_ifs <;> omega

theorem pyRound_le {y : ℚ} {B : ℤ} (h : y ≤ (B : ℚ)) : pyRound y ≤ B := by
  have hfle : ((Rat.floor y : ℤ) : ℚ) ≤ y := Rat.le_floor.mp (le_refl _)
  have hfl : Rat.floor y ≤ B := by
    by_contra hc
    push_neg at hc
    have h1 : ((B + 1 : ℤ) : ℚ) ≤ y := Rat.le_floor.mp (by omega)
    have h2 : (B : ℚ) + 1 ≤ y := by push_cast at h1; linarith
    linarith
  have hkey : ¬ (y - ((Rat.floor y : ℤ) : ℚ) < 1/2) → Rat.floor y < B := by
    intro hge
    rcases lt_or_eq_of_le hfl with hlt | heq
    · exact hlt
    · exfalso
      have hle0 : y - ((Rat.floor y : ℤ) : ℚ) ≤ 0 := by rw [heq]; linarith
      exact hge (by linarith)
  unfold pyRound
  dsimp only
  split_ifs with h1 h2 h3
  · exact hfl
  · have := hkey h1; omega
  · exact hfl
  · have := hkey h1; omega

theorem pyRound1_nonneg {x : ℚ} (h : 0 ≤ x) : 0 ≤ pyRound1 x := by
  unfold pyRound1
  apply div_nonneg _ (by norm_num)
  exact_mod_cast pyRound_nonneg (by linarith : (0:ℚ) ≤ x * 10)

theorem pyRound1_le_100 {x : ℚ} (h : x ≤ 100) : pyRound1 x ≤ 100 := by
  unfold pyRound1
  have h1 : x * 10 ≤ ((1000 : ℤ) : ℚ) := by push_cast; linarith
  have h2 : ((pyRound (x * 10) : ℤ) : ℚ) ≤ 1000 := by exact_mod_cast pyRound_le h1
  linarith

theorem sum_pos_iff_exists_pos (l : List ℚ) (h : ∀ x ∈ l, 0 ≤ x) :
    0 < l.sum ↔ ∃ x ∈ l, 0 < x := by
  induction l with
  | nil => simp
  | cons a rest ih =>
    simp only [List.sum_cons, List.mem_cons]
    have ha := h a (List.mem_cons_self a rest)
    have hrest : ∀ x ∈ rest, 0 ≤ x := fun x hx => h x (List.mem_cons_of_mem _ hx)
    have hs := List.sum_nonneg hrest
    constructor
    · intro hpos
      by_cases haz : 0 < a
      · exact ⟨a, Or.inl rfl, haz⟩
      · have hzero : a = 0 := le_antisymm (not_lt.mp haz) ha
        have : 0 < rest.sum := by rw [hzero] at hpos; linarith
        rcases (ih hrest).mp this with ⟨x, hx, hxp⟩
        exact ⟨x, Or.inr hx, hxp⟩
    · rintro ⟨x, hx | hx, hxp⟩
      · subst hx; linarith
      · have := (ih hrest).mpr ⟨x, hx, hxp⟩
        linarith

theorem topic_mastery_mean_pos_iff (qdb : List Question) (sessions : List Session)
    (t : String) :
    0 < topic_mastery_mean qdb sessions t ↔
      topic_has_correct_attempt qdb sessions t = true := by
  unfold topic_mastery_mean topic_has_correct_attempt
  dsimp only
  have hnn : ∀ x ∈ sessions.filterMap (session_mastery qdb t), 0 ≤ x := by
    intro x hx
    rcases List.mem_filterMap.mp hx with ⟨sess, _, hs⟩
    exact (session_mastery_bounds hs).1
  split_ifs with hnil
  · constructor
    · intro hlt; exact absurd hlt (lt_irrefl 0)
    · intro hany
      exfalso
      rcases List.any_eq_true.mp hany with ⟨sess, hsess, hp⟩
      have hc : 0 < session_topic_correct qdb sess t := of_decide_eq_true hp
      have ht : 0 < session_topic_total qdb sess t :=
        lt_of_lt_of_le hc (session_topic_correct_le_total qdb sess t)
      have hmem : ((session_topic_correct qdb sess t : ℚ) /
          (session_topic_total qdb sess t : ℚ)) ∈
            sessions.filterMap (session_mastery qdb t) :=
        List.mem_filterMap.mpr ⟨sess, hsess,
          (session_mastery_some_iff qdb sess t _).mpr ⟨ht, rfl⟩⟩
      rw [hnil] at hmem
      exact absurd hmem (List.not_mem_nil _)
  · have hlen : (0:ℚ) < ((sessions.filterMap (session_mastery qdb t)).length : ℚ) := by
      exact_mod_cast List.length_pos.mpr hnil
    constructor
    · intro hpos
      have hsum : 0 < (sessions.filterMap (session_mastery qdb t)).sum := by
        by_contra hns
        push_neg at hns
        have : listMean (sessions.filterMap (session_mastery qdb t)) ≤ 0 :=
          div_nonpos_iff.mpr (Or.inr ⟨hns, le_of_lt hlen⟩)
        linarith
      rcases (sum_pos_iff_exists_pos _ hnn).mp hsum with ⟨x, hx, hxpos⟩
      rcases List.mem_filterMap.mp hx with ⟨sess, hsess, hsx⟩
      rcases (session_mastery_some_iff qdb sess t x).mp hsx with ⟨htot, rfl⟩
      apply List.any_eq_true.mpr
      refine ⟨sess, hsess, decide_eq_true ?_⟩
      by_contra hc
      push_neg at hc
      have hzero : session_topic_correct qdb sess t = 0 := Nat.le_zero.mp hc
      rw [hzero] at hxpos
      norm_num at hxpos
    · intro hany
      rcases List.any_eq_true.mp hany with ⟨sess, hsess, hp⟩
      have hc : 0 < session_topic_correct qdb sess t := of_decide_eq_true hp
      have htot : 0 < session_topic_total qdb sess t :=
        lt_of_lt_of_le hc (session_topic_correct_le_total qdb sess t)
      have hmem : ((session_topic_correct qdb sess t : ℚ) /
          (session_topic_total qdb sess t : ℚ)) ∈
            sessions.filterMap (session_mastery qdb t) :=
        List.mem_filterMap.mpr ⟨sess, hsess,
          (session_mastery_some_iff qdb sess t _).mpr ⟨htot, rfl⟩⟩
      have hxpos : 0 < ((session_topic_correct qdb sess t : ℚ) /
          (session_topic_total qdb sess t : ℚ)) :=
        div_pos (by exact_mod_cast hc) (by exact_mod_cast htot)
      have hsum : 0 < (sessions.filterMap (session_mastery qdb t)).sum :=
        (sum_pos_iff_exists_pos _ hnn).mpr ⟨_, hmem, hxpos⟩
      exact div_pos hsum hlen

theorem coverage_filter_eq (qdb : List Question) (sessions : List Session) :
    (all_topics qdb).filter (fun t => decide (0 < topic_mastery_mean qdb sessions t)) =
      (all_topics qdb).filter (topic_has_correct_attempt qdb sessions) := by
  apply List.filter_congr
  intro t _
  by_cases h : 0 < topic_mastery_mean qdb sessions t
  · rw [decide_eq_true h, (topic_mastery_mean_pos_iff qdb sessions t).mp h]
  · cases hb : topic_has_correct_attempt qdb sessions t
    · rw [decide_eq_false h]
    · exact absurd ((topic_mastery_mean_pos_iff qdb sessions t).mpr hb) h

theorem readiness_mastery_score_bounds (qdb : List Question) (sessions : List Session) :
    0 ≤ readiness_mastery_score qdb sessions ∧ readiness_mastery_score qdb sessions ≤ 1 := by
  unfold readiness_mastery_score
  split_ifs with h
  · norm_num
  · have hx : ∀ x ∈ (all_topics qdb).map (topic_mastery_mean qdb sessions),
        0 ≤ x ∧ x ≤ 1 := by
      intro x hx
      rcases List.mem_map.mp hx with ⟨t, _, rfl⟩
      exact topic_mastery_mean_bounds qdb sessions t
    exact ⟨listMean_nonneg _ (fun x hm => (hx x hm).1),
      listMean_le_one _ (fun x hm => (hx x hm).2)⟩

theorem readiness_consistency_score_bounds (qdb : List Question) (sessions : List Session) :
    0 ≤ readiness_consistency_score qdb sessions ∧
      readiness_consistency_score qdb sessions ≤ 1 := by
  unfold readiness_consistency_score
  apply pymax_zero_bounds
  have hav : 0 ≤ readiness_avg_variance qdb sessions := by
    unfold readiness_avg_variance
    split_ifs with h
    · exact le_refl 0
    · apply listMean_nonneg
      intro x hx
      rcases List.mem_map.mp hx with ⟨t, _, rfl⟩
      exact topic_variance_nonneg qdb sessions t
  linarith

theorem readiness_confidence_score_bounds (sessions : List Session) :
    0 ≤ readiness_confidence_score sessions ∧ readiness_confidence_score sessions ≤ 1 := by
  unfold readiness_confidence_score
  apply pymax_zero_bounds
  have hav : 0 ≤ readiness_avg_hesitation sessions := by
    unfold readiness_avg_hesitation
    dsimp only
    split_ifs with h
    · exact div_nonneg (Nat.cast_nonneg _) (Nat.cast_nonneg _)
    · exact le_refl 0
  linarith

theorem readiness_coverage_score_bounds (qdb : List Question) (sessions : List Session) :
    0 ≤ readiness_coverage_score qdb sessions ∧ readiness_coverage_score qdb sessions ≤ 1 := by
  unfold readiness_coverage_score
  split_ifs with h
  · norm_num
  · have hlen : (0:ℚ) < ((all_topics qdb).length : ℚ) := by
      exact_mod_cast List.length_pos.mpr h
    constructor
    · positivity
    · rw [div_le_one hlen]
      exact_mod_cast List.length_filter_le _ _

theorem readiness_overall_score_bounds (qdb : List Question) (sessions : List Session) :
    0 ≤ readiness_overall_score qdb sessions ∧ readiness_overall_score qdb sessions ≤ 100 := by
  obtain ⟨hm0, hm1⟩ := readiness_mastery_score_bounds qdb sessions
  obtain ⟨hc0, hc1⟩ := readiness_consistency_score_bounds qdb sessions
  obtain ⟨hf0, hf1⟩ := readiness_confidence_score_bounds sessions
  obtain ⟨hv0, hv1⟩ := readiness_coverage_score_bounds qdb sessions
  unfold readiness_overall_score
  constructor <;> nlinarith

/-- C9 counterexample: a document with one topic and a single completed
session in which its only question was answered wrong.  The topic has an
attempt, so the claim predicts coverage_score 100, but the code reports
coverage_score 0 (the topic's mean mastery is 0, so it is not counted as
practiced). -/
theorem c9_counterexample :
    coverage_fraction_attempted c9_qdb c9_sessions = 1 ∧
    (calculate_exam_readiness c9_qdb c9_sessions).coverage_score = 0 := by
  have hat : all_topics c9_qdb = ["t"] := by decide
  have hsess : c9_sessions = [c9_sessions.headI] := by decide
  have htot : session_topic_total c9_qdb c9_sessions.headI "t" = 1 := by decide
  have hcor : session_topic_correct c9_qdb c9_sessions.headI "t" = 0 := by decide
  have hatt : topic_has_attempt c9_qdb c9_sessions "t" = true := by decide
  have hmean : topic_mastery_mean c9_qdb c9_sessions "t" = 0 := by
    have hsm : session_mastery c9_qdb "t" c9_sessions.headI = some 0 := by
      rw [session_mastery_some_iff, htot, hcor]
      norm_num
    unfold topic_mastery_mean
    rw [hsess, List.filterMap_cons, hsm]
    simp only [List.filterMap_nil]
    norm_num [listMean]
  have hcov : readiness_coverage_score c9_qdb c9_sessions = 0 := by
    unfold readiness_coverage_score
    rw [hat]
    rw [show (["t"].filter
        (fun t => decide (0 < topic_mastery_mean c9_qdb c9_sessions t))) = [] by
      simp [List.filter, hmean]]
    norm_num
  have hfloor0 : Rat.floor (0:ℚ) = 0 := by norm_num [Rat.floor_def']
  have hpr0 : pyRound (0:ℚ) = 0 := by
    unfold pyRound
    dsimp only
    rw [hfloor0]
    norm_num
  constructor
  · unfold coverage_fraction_attempted
    rw [hat]
    rw [show (["t"].filter (topic_has_attempt c9_qdb c9_sessions)) = ["t"] by
      simp [List.filter, hatt]]
    norm_num
  · unfold calculate_exam_readiness
    rw [if_neg (by decide)]
    dsimp only
    rw [hcov]
    norm_num [pyRound1, hpr0]

/-- C9 amended: the reported coverage_score is 100 times (rounded to one
decimal) the fraction of document topics with at least one CORRECT
attempt (equivalently, positive mean per-session mastery) — not merely
one attempt — and the reported overall_score always lies in [0, 100]. -/
theorem c9_exam_readiness_coverage (qdb : List Question) (sessions : List Session) :
    (calculate_exam_readiness qdb sessions).coverage_score =
      (if sessions = [] then 0
       else pyRound1 (coverage_fraction_correct qdb sessions * 100)) ∧
    0 ≤ (calculate_exam_readiness qdb sessions).overall_score ∧
    (calculate_exam_readiness qdb sessions).overall_score ≤ 100 := by
  unfold calculate_exam_readiness
  by_cases hs : sessions = []
  · rw [if_pos hs, if_pos hs]
    exact ⟨rfl, le_refl 0, by norm_num [default_readiness]⟩
  · rw [if_neg hs, if_neg hs]
    dsimp only
    refine ⟨?_, ?_, ?_⟩
    · have hcov : readiness_coverage_score qdb sessions =
          coverage_fraction_correct qdb sessions := by
        unfold readiness_coverage_score coverage_fraction_correct
        by_cases ht : all_topics qdb = []
        · rw [if_pos ht, if_pos ht]
        · rw [if_neg ht, if_neg ht, coverage_filter_eq]
      rw [hcov]
    · exact pyRound1_nonneg (readiness_overall_score_bounds qdb sessions).1
    · exact pyRound1_le_100 (readiness_overall_score_bounds qdb sessions).2
